import Mathlib

/-!
Verification of the environment-convergence loop of `azurelinuxagent/ga/env.py`
(`EnvHandler`): firewall idempotent reset, DHCP-restart detection, hostname
change detection, and archive scheduling.

The Python methods are shallowly embedded as pure Lean functions over an
explicit state record (`EnvState`). Calls to external collaborators
(`osutil`, `conf`, the dhcp handler, the archiver, the clock) are modelled by
an explicit per-invocation environment record (`TickEnv` / `RunEnv`) holding
the answers those collaborators would give, and by an `Event` trace recording
the side-effecting calls a method performs, in order.
-/

namespace EnvAgent

/-- The constant from env.py line 47, a 24-hour interval, in seconds. -/
def ARCHIVE_INTERVAL : Nat := 24 * 60 * 60

/-- The well-known legacy metadata-server endpoint constant imported at
env.py line 35. -/
def METADATA_SERVER_ENDPOINT : String := "169.254.169.254"

/-- Observable side-effecting calls made to external collaborators, recorded
in program order. -/
inductive Event where
  | remove_rules_files : Event
  | remove_firewall (dst_ip : String) (uid : Nat) : Event
  | enable_firewall (dst_ip : String) (uid : Nat) : Event
  | add_periodic (success : Bool) : Event
  | set_scsi_disks_timeout (timeout : Nat) : Event
  | set_hostname (hostname : String) : Event
  | publish_hostname (hostname : String) : Event
  | warn_dhcp_not_running : Event
  | error_dhcp_fetch : Event
  | conf_routes : Event
  | purge : Event
  | archive : Event
  deriving DecidableEq, Repr

/-- The mutable fields of an `EnvHandler` instance (set in `__init__`).
`server_thread` is `none` until `start()` runs; after `start()` it holds the
liveness the spawned thread reports. `last_archive` is a UTC timestamp in
seconds. -/
structure EnvState where
  stopped : Bool
  hostname : Option String
  dhcp_id_list : List Nat
  server_thread : Option Bool
  dhcp_warning_enabled : Bool
  last_archive : Option Nat
  has_reset_firewall_rules : Bool
  deriving DecidableEq, Repr

/-- The state of a freshly constructed handler, from the constructor at
env.py lines 61-72. -/
def EnvHandler.init : EnvState :=
  { stopped := true
    hostname := none
    dhcp_id_list := []
    server_thread := none
    dhcp_warning_enabled := true
    last_archive := none
    has_reset_firewall_rules := false }

/-- Answers the external collaborators give during one method invocation:
configuration reads, OS queries, the clock, and the outcome of the DHCP pid
fetch (`.error` models `osutil.get_dhcp_pid` raising an exception). -/
structure TickEnv where
  enable_firewall : Bool
  get_root_device_scsi_timeout : Option Nat
  get_monitor_hostname : Bool
  gethostname : String
  check_pid_alive : Nat → Bool
  get_dhcp_pid : Except Unit (List Nat)
  enable_firewall_result : Bool
  getuid : Nat
  now : Nat

/-- Insert a pid into an already ascending list, keeping it ascending. -/
def insertPid (x : Nat) : List Nat → List Nat
  | [] => [x]
  | y :: ys => if x ≤ y then x :: y :: ys else y :: insertPid x ys

/-- Ascending insertion sort on a list of naturals; extensionally the Python
builtin used at env.py line 168. -/
def sortPids (l : List Nat) : List Nat := l.foldr insertPid []

/-- Embedding of the method at env.py lines 162-178. Takes the fetch outcome
and the current `dhcp_warning_enabled` flag; returns the pid list the method
returns, the log events it emits, and the new flag value. The try/except of
the source is the match on the fetch outcome: the function is total, so a
fetch failure never propagates to the caller. -/
def get_dhcp_client_pid (fetch : Except Unit (List Nat)) (warning_enabled : Bool) :
    List Nat × List Event × Bool :=
  match fetch with
  | .ok raw =>
      let pid := sortPids raw
      let evs := if pid.length = 0 ∧ warning_enabled = true then
          [Event.warn_dhcp_not_running] else []
      (pid, evs, decide (pid.length ≠ 0))
  | .error _ =>
      let evs := if warning_enabled = true then [Event.error_dhcp_fetch] else []
      ([], evs, false)

/-- Embedding of the method at env.py lines 180-192. -/
def handle_dhclient_restart (env : TickEnv) (st : EnvState) : EnvState × List Event :=
  if st.dhcp_id_list.length = 0 then
    let r := get_dhcp_client_pid env.get_dhcp_pid st.dhcp_warning_enabled
    ({ st with dhcp_id_list := r.1, dhcp_warning_enabled := r.2.2 }, r.2.1)
  else if st.dhcp_id_list.all env.check_pid_alive then
    (st, [])
  else
    let r := get_dhcp_client_pid env.get_dhcp_pid st.dhcp_warning_enabled
    if r.1.length ≠ 0 ∧ r.1 ≠ st.dhcp_id_list then
      ({ st with dhcp_id_list := r.1, dhcp_warning_enabled := r.2.2 },
        r.2.1 ++ [Event.conf_routes])
    else
      ({ st with dhcp_warning_enabled := r.2.2 }, r.2.1)

/-- Embedding of the method at env.py lines 152-160. -/
def handle_hostname_update (env : TickEnv) (st : EnvState) : EnvState × List Event :=
  let curr_hostname := env.gethostname
  if some curr_hostname ≠ st.hostname then
    ({ st with hostname := some curr_hostname },
      [Event.set_hostname curr_hostname, Event.publish_hostname curr_hostname])
  else
    (st, [])

/-- Embedding of the method at env.py lines 102-122. -/
def set_firewall_rules (endpoint : String) (env : TickEnv) (st : EnvState) :
    EnvState × List Event :=
  let evs := [Event.remove_rules_files]
  if env.enable_firewall then
    let (st, evs) :=
      if st.has_reset_firewall_rules = false then
        ({ st with has_reset_firewall_rules := true },
          evs ++ [Event.remove_firewall endpoint env.getuid])
      else (st, evs)
    (st, evs ++ [Event.enable_firewall endpoint env.getuid,
                 Event.add_periodic env.enable_firewall_result])
  else
    (st, evs)

/-- Embedding of the method at env.py lines 194-205. -/
def archive_history (env : TickEnv) (st : EnvState) : EnvState × List Event :=
  match st.last_archive with
  | some last =>
      if env.now < last + ARCHIVE_INTERVAL then (st, [])
      else (st, [Event.purge, Event.archive])
  | none => (st, [Event.purge, Event.archive])

/-- One iteration of the `while not self.stopped` body of `EnvHandler.monitor`
(env.py:136-150), with `endpoint` the value `protocol.get_endpoint()` resolved
once when the loop task starts. -/
def monitor_tick (endpoint : String) (env : TickEnv) (st : EnvState) :
    EnvState × List Event :=
  let f := set_firewall_rules endpoint env st
  let scsi := match env.get_root_device_scsi_timeout with
    | some t => [Event.set_scsi_disks_timeout t]
    | none => []
  let h := if env.get_monitor_hostname then handle_hostname_update env f.1
    else (f.1, [])
  let d := handle_dhclient_restart env h.1
  let a := archive_history env d.1
  (a.1, f.2 ++ scsi ++ h.2 ++ d.2 ++ a.2)

/-- Embedding of the method at env.py lines 207-213: sets the flag and
joins; the join does not mutate any field. -/
def stop (st : EnvState) : EnvState := { st with stopped := true }

/-- Embedding of the method at env.py lines 96-100: spawns the monitor
thread; `thread_alive` is the liveness the new thread will report. -/
def start (thread_alive : Bool) (st : EnvState) : EnvState :=
  { st with server_thread := some thread_alive }

/-- Collaborator answers consumed by the run method at env.py lines 74-91. -/
structure RunEnv where
  tick : TickEnv
  get_hostname_record : String
  is_migrating_protocol : Bool
  endpoint : String
  thread_alive : Bool

/-- Embedding of the method at env.py lines 74-91: one-time bootstrap, then
hand-off to the monitor loop on a background thread. -/
def run (renv : RunEnv) (st0 : EnvState) : EnvState × List Event :=
  let st1 := if st0.stopped = false then stop st0 else st0
  let st2 := { st1 with stopped := false }
  let st3 := { st2 with hostname := some renv.get_hostname_record }
  let r := get_dhcp_client_pid renv.tick.get_dhcp_pid st3.dhcp_warning_enabled
  let st4 := { st3 with dhcp_id_list := r.1, dhcp_warning_enabled := r.2.2 }
  let mdsEvs :=
    if renv.tick.enable_firewall ∧ renv.is_migrating_protocol then
      [Event.remove_firewall METADATA_SERVER_ENDPOINT renv.tick.getuid]
    else []
  let f := set_firewall_rules renv.endpoint renv.tick st4
  let st5 := start renv.thread_alive f.1
  (st5, Event.conf_routes :: r.2.1 ++ mdsEvs ++ f.2)

/-- Embedding of the method at env.py lines 93-94, which dereferences
`server_thread` unconditionally. When `server_thread` is still `None`, the
attribute access raises (an attribute error on the `None` value), modelled
as `.error ()`. -/
def is_alive (st : EnvState) : Except Unit Bool :=
  match st.server_thread with
  | none => .error ()
  | some b => .ok b

/-- A fixed set of collaborator answers used to build concrete scenarios. -/
def defaultEnv : TickEnv :=
  { enable_firewall := false
    get_root_device_scsi_timeout := none
    get_monitor_hostname := false
    gethostname := ""
    check_pid_alive := fun _ => true
    get_dhcp_pid := .ok []
    enable_firewall_result := false
    getuid := 0
    now := 0 }

/-- Iterated monitor-loop ticks: fold the per-tick state transformer over a
list of per-tick collaborator answers. -/
def run_ticks (endpoint : String) (envs : List TickEnv) (st : EnvState) : EnvState :=
  envs.foldl (fun s e => (monitor_tick endpoint e s).1) st

/-- Recognise the hard-reset call `osutil.remove_firewall` in a trace. -/
def isHardReset : Event → Bool
  | .remove_firewall _ _ => true
  | _ => false

/-- Number of hard-reset calls in a trace. -/
def resetCount (evs : List Event) : Nat := evs.countP isHardReset

/-- Iterated invocations of the firewall reconciler, returning the final
state and the list of per-invocation traces in order. -/
def set_firewall_seq (endpoint : String) (envs : List TickEnv) (st : EnvState) :
    EnvState × List (List Event) :=
  match envs with
  | [] => (st, [])
  | e :: rest =>
      let r := set_firewall_rules endpoint e st
      let rs := set_firewall_seq endpoint rest r.1
      (rs.1, r.2 :: rs.2)

/-- The `dhcp_warning_enabled` flag after a sequence of pid fetches, starting
from the constructor value `true`. -/
def dhcp_flag_after (history : List (Except Unit (List Nat))) : Bool :=
  history.foldl (fun w f => (get_dhcp_client_pid f w).2.2) true

/-- Whether a fetch outcome yields a non-empty pid list. -/
def fetch_nonempty : Except Unit (List Nat) → Bool
  | .ok raw => decide (raw ≠ [])
  | .error _ => false

/-- The lifecycle operations available on one handler instance. -/
inductive Op where
  | opRun (renv : RunEnv) : Op
  | opStop : Op
  | opTick (endpoint : String) (env : TickEnv) : Op

/-- Apply one lifecycle operation to the handler state. -/
def applyOp : Op → EnvState → EnvState
  | .opRun renv, st => (run renv st).1
  | .opStop, st => stop st
  | .opTick endpoint env, st => (monitor_tick endpoint env st).1

/-- Apply a sequence of lifecycle operations to the handler state. -/
def applyOps (ops : List Op) (st : EnvState) : EnvState :=
  ops.foldl (fun s o => applyOp o s) st

lemma insertPid_length (x : Nat) (l : List Nat) :
    (insertPid x l).length = l.length + 1 := by
  induction l with
  | nil => rfl
  | cons y ys ih =>
      simp only [insertPid]
      split <;> simp [ih]

lemma sortPids_length (l : List Nat) : (sortPids l).length = l.length := by
  induction l with
  | nil => rfl
  | cons x xs ih =>
      simp only [sortPids, List.foldr_cons] at *
      rw [insertPid_length, ih, List.length_cons]

lemma sortPids_eq_nil_iff (l : List Nat) : sortPids l = [] ↔ l = [] := by
  constructor
  · intro h
    have := sortPids_length l
    rw [h] at this
    exact List.length_eq_zero.mp this.symm
  · intro h; subst h; rfl

lemma get_dhcp_client_pid_flag (f : Except Unit (List Nat)) (w : Bool) :
    (get_dhcp_client_pid f w).2.2 = fetch_nonempty f := by
  cases f with
  | ok raw =>
      simp only [get_dhcp_client_pid, fetch_nonempty]
      have hlen := sortPids_length raw
      rcases raw with _ | ⟨x, xs⟩
      · simp [sortPids]
      · simp only [List.length_cons] at hlen
        simp [hlen]
  | error e => simp [get_dhcp_client_pid, fetch_nonempty]

lemma set_firewall_rules_last_archive (endpoint : String) (env : TickEnv)
    (st : EnvState) :
    (set_firewall_rules endpoint env st).1.last_archive = st.last_archive := by
  simp only [set_firewall_rules]
  split
  · split <;> rfl
  · rfl

lemma handle_hostname_update_last_archive (env : TickEnv) (st : EnvState) :
    (handle_hostname_update env st).1.last_archive = st.last_archive := by
  simp only [handle_hostname_update]
  split <;> rfl

lemma handle_dhclient_restart_last_archive (env : TickEnv) (st : EnvState) :
    (handle_dhclient_restart env st).1.last_archive = st.last_archive := by
  simp only [handle_dhclient_restart]
  split
  · rfl
  · split
    · rfl
    · split <;> rfl

lemma archive_history_state (env : TickEnv) (st : EnvState) :
    (archive_history env st).1 = st := by
  simp only [archive_history]
  split
  · split <;> rfl
  · rfl

lemma monitor_tick_last_archive (endpoint : String) (env : TickEnv)
    (st : EnvState) :
    (monitor_tick endpoint env st).1.last_archive = st.last_archive := by
  simp only [monitor_tick, archive_history_state]
  rw [handle_dhclient_restart_last_archive]
  split
  · rw [handle_hostname_update_last_archive, set_firewall_rules_last_archive]
  · rw [set_firewall_rules_last_archive]

/-- Collaborator answers for a scenario where every previous pid is reported
dead and the refetch yields the empty sequence. -/
def envRefetchEmpty : TickEnv :=
  { defaultEnv with
      check_pid_alive := fun _ => false
      get_dhcp_pid := .ok [] }

/-- Handler state whose stored dhcp pid sequence is the singleton [101]. -/
def stOneDeadPid : EnvState := { EnvHandler.init with dhcp_id_list := [101] }

/-- C1. The claim as stated is false on the code: with previous stored
sequence [101], pid 101 reported dead, and a refetch yielding the empty
sequence, the refetched sequence is not stored — the stored dhcp pid state
remains [101] (the assignment at env.py line 192 sits inside the guard at
line 189), so the next tick does not re-enter the bootstrap path. -/
theorem C1_counterexample :
    (handle_dhclient_restart envRefetchEmpty stOneDeadPid).1.dhcp_id_list = [101] ∧
    (get_dhcp_client_pid envRefetchEmpty.get_dhcp_pid
        stOneDeadPid.dhcp_warning_enabled).1 = [] ∧
    (handle_dhclient_restart envRefetchEmpty stOneDeadPid).1.dhcp_id_list ≠
      (get_dhcp_client_pid envRefetchEmpty.get_dhcp_pid
        stOneDeadPid.dhcp_warning_enabled).1 := by
  decide

/-- C1 (amended): for every tick entering step 3 (previous stored pid
sequence non-empty, at least one stored pid reported dead), the refetched
sequence is stored as the current dhcp pid state exactly in the restart
sub-case (refetch non-empty and different from the old sequence); when the
refetched sequence is empty or equal to the old one, the stored state is
unchanged and remains the old non-empty sequence. -/
theorem C1_amended_step3_storage (env : TickEnv) (st : EnvState)
    (hne : ¬ st.dhcp_id_list.length = 0)
    (hdead : ¬ st.dhcp_id_list.all env.check_pid_alive = true) :
    ((get_dhcp_client_pid env.get_dhcp_pid st.dhcp_warning_enabled).1.length ≠ 0 ∧
        (get_dhcp_client_pid env.get_dhcp_pid st.dhcp_warning_enabled).1 ≠
          st.dhcp_id_list →
      (handle_dhclient_restart env st).1.dhcp_id_list =
        (get_dhcp_client_pid env.get_dhcp_pid st.dhcp_warning_enabled).1) ∧
    (¬ ((get_dhcp_client_pid env.get_dhcp_pid st.dhcp_warning_enabled).1.length ≠ 0 ∧
        (get_dhcp_client_pid env.get_dhcp_pid st.dhcp_warning_enabled).1 ≠
          st.dhcp_id_list) →
      (handle_dhclient_restart env st).1.dhcp_id_list = st.dhcp_id_list) := by
  constructor
  · intro h
    simp only [handle_dhclient_restart, if_neg hne, if_neg hdead, if_pos h]
  · intro h
    simp only [handle_dhclient_restart, if_neg hne, if_neg hdead, if_neg h]

/-- Witness for C1 (amended) at a concrete input: previous sequence [101],
all pids dead, refetch yields [205], so [205] is stored. -/
theorem C1_amended_step3_storage_witness :
    (handle_dhclient_restart
        { defaultEnv with
            check_pid_alive := fun _ => false
            get_dhcp_pid := .ok [205] }
        stOneDeadPid).1.dhcp_id_list = [205] := by
  have h := C1_amended_step3_storage
    { defaultEnv with
        check_pid_alive := fun _ => false
        get_dhcp_pid := .ok [205] }
    stOneDeadPid (by decide) (by decide)
  exact h.1 (by decide)

/-- C2: per tick of the archive scheduler, when `last_archive = some T` and
the clock is still before `T` plus the 24-hour interval, no purge or archive
call occurs; otherwise (interval elapsed, or `last_archive` unset) the trace
is exactly purge followed by archive, in that order. -/
theorem C2_archive_gating (env : TickEnv) (st : EnvState) :
    (∀ T, st.last_archive = some T → env.now < T + ARCHIVE_INTERVAL →
      (archive_history env st).2 = []) ∧
    (st.last_archive = none ∨
        (∃ T, st.last_archive = some T ∧ T + ARCHIVE_INTERVAL ≤ env.now) →
      (archive_history env st).2 = [Event.purge, Event.archive]) := by
  constructor
  · intro T hT hlt
    simp [archive_history, hT, hlt]
  · intro h
    rcases h with h | ⟨T, hT, hge⟩
    · simp [archive_history, h]
    · simp [archive_history, hT, Nat.not_lt.mpr hge]

/-- Witness for C2 on the first tick: `last_archive` is unset in the freshly
constructed state, so the trace is purge followed by archive. -/
theorem C2_archive_gating_witness :
    (archive_history defaultEnv EnvHandler.init).2 = [Event.purge, Event.archive] :=
  (C2_archive_gating defaultEnv EnvHandler.init).2 (Or.inl rfl)

/-- C3: `last_archive` is written by no per-tick operation of the
convergence loop — over any sequence of monitor ticks, it keeps the value it
had after construction. -/
theorem C3_last_archive_frame (endpoint : String) (envs : List TickEnv)
    (st : EnvState) :
    (run_ticks endpoint envs st).last_archive = st.last_archive := by
  induction envs generalizing st with
  | nil => rfl
  | cons e rest ih =>
      simp only [run_ticks, List.foldl_cons] at *
      rw [ih, monitor_tick_last_archive]

/-- Collaborator answers for the C5 scenario: pid 101 dead, pid 205 and all
others alive, refetch returning 309 and 205 (unsorted). -/
def envDhcpRestart : TickEnv :=
  { defaultEnv with
      check_pid_alive := fun p => decide (p ≠ 101)
      get_dhcp_pid := .ok [309, 205] }

/-- Handler state whose stored dhcp pid sequence is [101, 205]. -/
def stTwoPids : EnvState := { EnvHandler.init with dhcp_id_list := [101, 205] }

/-- C5: with previous stored sequence [101, 205], pid 101 reported dead, and
a refetch yielding the sorted sequence [205, 309], exactly one conf_routes
call occurs during the tick and the stored state becomes [205, 309]. -/
theorem C5_restart_detection :
    (handle_dhclient_restart envDhcpRestart stTwoPids).2.count Event.conf_routes = 1 ∧
    (handle_dhclient_restart envDhcpRestart stTwoPids).1.dhcp_id_list = [205, 309] := by
  decide

/-- Handler state whose cached hostname is host-a. -/
def stHostA : EnvState := { EnvHandler.init with hostname := some "host-a" }

/-- C6: with cached hostname host-a, a live query returning host-b triggers
set_hostname then publish_hostname with host-b and updates the cache to
host-b; a live query returning host-a triggers neither call and leaves the
state unchanged. -/
theorem C6_hostname_detection :
    ((handle_hostname_update { defaultEnv with gethostname := "host-b" } stHostA).2 =
        [Event.set_hostname "host-b", Event.publish_hostname "host-b"] ∧
      (handle_hostname_update { defaultEnv with gethostname := "host-b" }
          stHostA).1.hostname = some "host-b") ∧
    ((handle_hostname_update { defaultEnv with gethostname := "host-a" }
        stHostA).2 = [] ∧
      (handle_hostname_update { defaultEnv with gethostname := "host-a" }
        stHostA).1 = stHostA) := by
  decide

/-- C8: when the external pid fetch raises, get_dhcp_client_pid catches the
failure (the embedding is a total function: nothing propagates), returns the
empty sequence, logs the error exactly when the warning-enabled flag is
true, and clears the flag. -/
theorem C8_fetch_failure (e : Unit) (w : Bool) :
    (get_dhcp_client_pid (.error e) w).1 = [] ∧
    ((get_dhcp_client_pid (.error e) w).2.1 =
      if w = true then [Event.error_dhcp_fetch] else []) ∧
    (get_dhcp_client_pid (.error e) w).2.2 = false := by
  cases w <;> simp [get_dhcp_client_pid]

/-- C10: on a freshly constructed handler (before the first run/start),
is_alive does not return any boolean — in particular not false; it
dereferences the still-unset thread field and raises. -/
theorem C10_is_alive_unstarted :
    is_alive EnvHandler.init = .error () ∧
    ∀ b : Bool, is_alive EnvHandler.init ≠ .ok b := by
  refine ⟨rfl, ?_⟩
  intro b h
  exact Except.noConfusion h

lemma set_firewall_rules_reset_true (endpoint : String) (env : TickEnv)
    (st : EnvState) (h : st.has_reset_firewall_rules = true) :
    (set_firewall_rules endpoint env st).1.has_reset_firewall_rules = true ∧
    resetCount (set_firewall_rules endpoint env st).2 = 0 := by
  simp only [set_firewall_rules]
  split
  · rw [if_neg (by simp [h])]
    simp [h, resetCount, List.countP_cons, List.countP_nil, isHardReset]
  · simp [h, resetCount, List.countP_cons, List.countP_nil, isHardReset]

lemma set_firewall_rules_reset_fire (endpoint : String) (env : TickEnv)
    (st : EnvState) (hflag : st.has_reset_firewall_rules = false)
    (hfw : env.enable_firewall = true) :
    (set_firewall_rules endpoint env st).1.has_reset_firewall_rules = true ∧
    resetCount (set_firewall_rules endpoint env st).2 = 1 := by
  simp only [set_firewall_rules, hfw, if_true]
  rw [if_pos hflag]
  simp [resetCount, List.countP_cons, List.countP_nil, isHardReset]

lemma set_firewall_seq_reset_done (endpoint : String) (envs : List TickEnv)
    (st : EnvState) (h : st.has_reset_firewall_rules = true) :
    (set_firewall_seq endpoint envs st).1.has_reset_firewall_rules = true ∧
    (set_firewall_seq endpoint envs st).2.map resetCount =
      List.replicate envs.length 0 := by
  induction envs generalizing st with
  | nil => exact ⟨h, rfl⟩
  | cons e rest ih =>
      have h1 := set_firewall_rules_reset_true endpoint e st h
      have h2 := ih (set_firewall_rules endpoint e st).1 h1.1
      refine ⟨?_, ?_⟩
      · simpa [set_firewall_seq] using h2.1
      · simp [set_firewall_seq, h1.2, h2.2, List.replicate]

/-- C4: starting from a state where the one-time reset has not yet run,
across any non-empty sequence of firewall-reconciler invocations with the
firewall enabled in configuration, the hard reset call occurs exactly once —
on the first invocation and on none of the later ones — and the guard flag
ends (and stays) true. -/
theorem C4_firewall_reset_once (endpoint : String) (envs : List TickEnv)
    (st : EnvState) (hflag : st.has_reset_firewall_rules = false)
    (hall : ∀ e ∈ envs, e.enable_firewall = true) (hne : envs ≠ []) :
    (set_firewall_seq endpoint envs st).2.map resetCount =
      1 :: List.replicate (envs.length - 1) 0 ∧
    (set_firewall_seq endpoint envs st).1.has_reset_firewall_rules = true := by
  match envs, hne with
  | e :: rest, _ =>
      have hfw := hall e (List.mem_cons_self e rest)
      have h1 := set_firewall_rules_reset_fire endpoint e st hflag hfw
      have h2 := set_firewall_seq_reset_done endpoint rest
        (set_firewall_rules endpoint e st).1 h1.1
      refine ⟨?_, ?_⟩
      · simp [set_firewall_seq, h1.2, h2.2]
      · simpa [set_firewall_seq] using h2.1

/-- Collaborator answers with the firewall enabled in configuration. -/
def envFirewallOn : TickEnv := { defaultEnv with enable_firewall := true }

/-- Witness for C4: two enabled invocations from the freshly constructed
state perform one hard reset on the first and none on the second. -/
theorem C4_firewall_reset_once_witness :
    (set_firewall_seq "168.63.129.16" [envFirewallOn, envFirewallOn]
        EnvHandler.init).2.map resetCount = [1, 0] := by
  have h := C4_firewall_reset_once "168.63.129.16" [envFirewallOn, envFirewallOn]
    EnvHandler.init rfl
    (by
      intro e he
      rcases List.mem_cons.mp he with h1 | h1
      · subst h1; rfl
      · rcases List.mem_cons.mp h1 with h2 | h2
        · subst h2; rfl
        · exact absurd h2 (List.not_mem_nil e))
    (List.cons_ne_nil _ _)
  simpa [List.replicate] using h.1

lemma dhcp_flag_after_append (history : List (Except Unit (List Nat)))
    (f : Except Unit (List Nat)) :
    dhcp_flag_after (history ++ [f]) = fetch_nonempty f := by
  simp only [dhcp_flag_after, List.foldl_append, List.foldl_cons, List.foldl_nil]
  rw [get_dhcp_client_pid_flag]

lemma dhcp_flag_after_getLast (history : List (Except Unit (List Nat))) :
    dhcp_flag_after history =
      match history.getLast? with
      | none => true
      | some f => fetch_nonempty f := by
  induction history using List.reverseRecOn with
  | nil => rfl
  | append_singleton h f ih =>
      rw [dhcp_flag_after_append, List.getLast?_concat]

/-- C7: the DHCP-not-running warning fires only on the transition into the
empty-pid state. First conjunct: a fetch returning empty pids logs the
warning iff the warning-enabled flag (as left by the preceding fetch
history) is true. Second: the flag is true iff no fetch has happened yet or
the last fetch returned non-empty pids. Third: after any further fetch the
flag re-arms exactly when that fetch returns non-empty pids. -/
theorem C7_warning_transition (history : List (Except Unit (List Nat)))
    (raw : List Nat) :
    (raw = [] →
      (Event.warn_dhcp_not_running ∈
          (get_dhcp_client_pid (.ok raw) (dhcp_flag_after history)).2.1 ↔
        dhcp_flag_after history = true)) ∧
    (dhcp_flag_after history = true ↔
      (history = [] ∨ ∃ raw2, history.getLast? = some (.ok raw2) ∧ raw2 ≠ [])) ∧
    (∀ f, dhcp_flag_after (history ++ [f]) = fetch_nonempty f) := by
  refine ⟨?_, ?_, fun f => dhcp_flag_after_append history f⟩
  · intro hraw
    subst hraw
    cases hw : dhcp_flag_after history <;>
      simp [get_dhcp_client_pid, sortPids, hw]
  · rw [dhcp_flag_after_getLast]
    cases hl : history.getLast? with
    | none =>
        rw [List.getLast?_eq_none_iff] at hl
        simp [hl]
    | some f =>
        have hne : history ≠ [] := by
          rintro rfl
          simp at hl
        cases f with
        | ok raw2 => simp [fetch_nonempty, hne, hl]
        | error e => simp [fetch_nonempty, hne, hl]

/-- Witness for C7: after a history of one non-empty fetch, the flag is
armed, so an empty fetch logs the warning. -/
theorem C7_warning_transition_witness :
    Event.warn_dhcp_not_running ∈
      (get_dhcp_client_pid (.ok ([] : List Nat))
        (dhcp_flag_after [Except.ok [7]])).2.1 := by
  have h := C7_warning_transition [Except.ok [7]] []
  exact (h.1 rfl).mpr (by decide)

lemma set_firewall_rules_flag (endpoint : String) (env : TickEnv)
    (st : EnvState) :
    (set_firewall_rules endpoint env st).1.has_reset_firewall_rules =
      (st.has_reset_firewall_rules || env.enable_firewall) := by
  simp only [set_firewall_rules]
  split
  · next hfw =>
      split
      · next hfl => simp [hfw]
      · next hfl =>
          simp only [Bool.not_eq_false] at hfl
          simp [hfl]
  · next hfw =>
      simp only [Bool.not_eq_true] at hfw
      simp [hfw]

lemma handle_hostname_update_flag (env : TickEnv) (st : EnvState) :
    (handle_hostname_update env st).1.has_reset_firewall_rules =
      st.has_reset_firewall_rules := by
  simp only [handle_hostname_update]
  split <;> rfl

lemma handle_dhclient_restart_flag (env : TickEnv) (st : EnvState) :
    (handle_dhclient_restart env st).1.has_reset_firewall_rules =
      st.has_reset_firewall_rules := by
  simp only [handle_dhclient_restart]
  split
  · rfl
  · split
    · rfl
    · split <;> rfl

lemma monitor_tick_flag (endpoint : String) (env : TickEnv) (st : EnvState) :
    (monitor_tick endpoint env st).1.has_reset_firewall_rules =
      (st.has_reset_firewall_rules || env.enable_firewall) := by
  simp only [monitor_tick, archive_history_state]
  rw [handle_dhclient_restart_flag]
  split
  · rw [handle_hostname_update_flag, set_firewall_rules_flag]
  · rw [set_firewall_rules_flag]

lemma run_flag (renv : RunEnv) (st : EnvState) :
    (run renv st).1.has_reset_firewall_rules =
      (st.has_reset_firewall_rules || renv.tick.enable_firewall) := by
  have hif : (if st.stopped = false then stop st else st).has_reset_firewall_rules
      = st.has_reset_firewall_rules := by
    simp only [stop]
    split <;> rfl
  simp only [run, start]
  rw [set_firewall_rules_flag]
  rw [hif]

lemma applyOp_flag_mono (o : Op) (st : EnvState)
    (h : st.has_reset_firewall_rules = true) :
    (applyOp o st).has_reset_firewall_rules = true := by
  cases o with
  | opRun renv =>
      rw [applyOp, run_flag, h, Bool.true_or]
  | opStop => exact h
  | opTick endpoint env =>
      rw [applyOp, monitor_tick_flag, h, Bool.true_or]

/-- C9: over any sequence of run, stop, and tick operations on one handler
instance, the one-time-reset flag never transitions from true back to false;
in particular a stop followed by another run does not re-arm the hard
firewall reset. -/
theorem C9_firewall_flag_monotone (ops : List Op) (st : EnvState)
    (h : st.has_reset_firewall_rules = true) :
    (applyOps ops st).has_reset_firewall_rules = true := by
  induction ops generalizing st with
  | nil => exact h
  | cons o rest ih =>
      simp only [applyOps, List.foldl_cons] at *
      exact ih (applyOp o st) (applyOp_flag_mono o st h)

/-- Collaborator answers for one full run invocation. -/
def renvBoot : RunEnv :=
  { tick := defaultEnv
    get_hostname_record := "host-a"
    is_migrating_protocol := false
    endpoint := "168.63.129.16"
    thread_alive := true }

/-- Witness for C9: a stop followed by a fresh run leaves the flag true. -/
theorem C9_firewall_flag_monotone_witness :
    (applyOps [Op.opStop, Op.opRun renvBoot]
        { EnvHandler.init with
            has_reset_firewall_rules := true }).has_reset_firewall_rules = true :=
  C9_firewall_flag_monotone [Op.opStop, Op.opRun renvBoot]
    { EnvHandler.init with has_reset_firewall_rules := true } rfl

end EnvAgent
